import Mathlib

/-!
Verification development for the `vehicleinfo` RTO-lookup tool
(`src/vehicle_info.py`).  The Python program is shallowly embedded:
JSON-decodable Python values become the inductive `JValue` (Python `None`
is `JValue.null`), dictionaries become association lists in insertion
order (Python dict keys are unique and iterate in insertion order),
and the effectful top level (`main`, `save_to_file`) becomes a pure
function over explicit inputs (argv, stdin, the decoded provider
response, timestamps, filesystem outcomes) returning a record of its
observable behaviour.  Python string methods are modelled for the ASCII
fragment the program manipulates.
-/

/-- A Python value decodable from JSON, as handled by the program.
`null` is Python `None`; `obj` is a dict as an insertion-ordered
association list with unique keys; numbers are modelled as integers
(no claim touches fractional values). -/
inductive JValue where
  | null
  | bool (b : Bool)
  | num (n : Int)
  | str (s : String)
  | arr (xs : List JValue)
  | obj (fields : List (String × JValue))
deriving Repr

/-- A single-quote character, kept out of string literals. -/
def apos : String := String.singleton (Char.ofNat 39)

mutual

/-- Python `repr` on an embedded value (strings quoted, `None`/`True`/
`False` spelled as in Python; string-escape refinement is not modelled —
no claim renders a string needing escapes). -/
def pyRepr : JValue → String
  | .null => "None"
  | .bool true => "True"
  | .bool false => "False"
  | .num n => toString n
  | .str s => apos ++ s ++ apos
  | .arr xs => "[" ++ pyReprArr xs ++ "]"
  | .obj fs => "\x7b" ++ pyReprObj fs ++ "\x7d"

/-- Comma-separated `repr`s of list elements. -/
def pyReprArr : List JValue → String
  | [] => ""
  | [x] => pyRepr x
  | x :: xs => pyRepr x ++ ", " ++ pyReprArr xs

/-- Comma-separated `repr`s of dict items. -/
def pyReprObj : List (String × JValue) → String
  | [] => ""
  | [(k, v)] => apos ++ k ++ apos ++ ": " ++ pyRepr v
  | (k, v) :: fs => apos ++ k ++ apos ++ ": " ++ pyRepr v ++ ", " ++ pyReprObj fs

end

/-- Python `str` on an embedded value (as used by f-string interpolation):
the identity on strings, `repr` elsewhere. -/
def pyStr : JValue → String
  | .str s => s
  | v => pyRepr v

/-- Python truthiness of an embedded value (`if vehicle_data:`). -/
def jTruthy : JValue → Bool
  | .null => false
  | .bool b => b
  | .num n => n != 0
  | .str s => s != ""
  | .arr xs => !xs.isEmpty
  | .obj fs => !fs.isEmpty

/-- The guard `api_response.get("status") == "success"` from
`extract_vehicle_data`: a missing key yields `None`, and only an equal
string compares equal to `"success"`. -/
def statusIsSuccess (fields : List (String × JValue)) : Bool :=
  match fields.lookup "status" with
  | some (.str s) => s == "success"
  | _ => false

/-- `extract_vehicle_data(api_response)` (src/vehicle_info.py lines
93–102): classify the raw provider response, returning the pair
`(vehicle_data, error)` where Python `None` is `JValue.null`. -/
def extract_vehicle_data : JValue → JValue × JValue
  | .obj fields =>
    match fields.lookup "error" with
    | some e => (.null, e)
    | none =>
      if statusIsSuccess fields && (fields.lookup "response").isSome then
        ((fields.lookup "response").getD .null, .null)
      else if (fields.lookup "license_plate").isSome
           || (fields.lookup "owner_name").isSome then
        (.obj fields, .null)
      else
        (.null, .str "Unknown response format")
  | _ => (.null, .str "Response is not a dictionary")

/-- C3 — a raw dict response carrying an `error` key always fails with
exactly the value under that key as the reason: the result is the pair
`(None, error-value)`, so the success-envelope, flat-record and
"Unknown response format" branches are never taken. -/
theorem extract_error_key_propagates
    (fields : List (String × JValue)) (e : JValue)
    (h : fields.lookup "error" = some e) :
    extract_vehicle_data (.obj fields) = (.null, e) := by
  simp [extract_vehicle_data, h]

theorem extract_error_key_propagates_witness :
    extract_vehicle_data (.obj [("error", .str "HTTP 500")])
      = (.null, .str "HTTP 500") :=
  extract_error_key_propagates [("error", .str "HTTP 500")] (.str "HTTP 500") rfl

/-- C4 — a raw dict response with no `error` key, `status` equal to
`"success"` and a `response` key present succeeds, and the canonical
record is exactly the nested `response` value. -/
theorem extract_success_envelope
    (fields : List (String × JValue)) (v : JValue)
    (hne : fields.lookup "error" = none)
    (hst : statusIsSuccess fields = true)
    (hrv : fields.lookup "response" = some v) :
    extract_vehicle_data (.obj fields) = (v, .null) := by
  simp [extract_vehicle_data, hne, hst, hrv]

theorem extract_success_envelope_witness :
    extract_vehicle_data
        (.obj [("status", .str "success"), ("response", .obj [("owner_name", .str "JOHN DOE")])])
      = (.obj [("owner_name", .str "JOHN DOE")], .null) :=
  extract_success_envelope
    [("status", .str "success"), ("response", .obj [("owner_name", .str "JOHN DOE")])]
    (.obj [("owner_name", .str "JOHN DOE")]) rfl rfl rfl

/-- C1 counterexample — on the raw response `\x7b"error": null\x7d` the
normalizer returns `(None, None)`: both results null at once, refuting
"exactly one of the two results is non-null". -/
theorem extract_both_null_counterexample :
    extract_vehicle_data (.obj [("error", .null)]) = (.null, .null) := rfl

/-- C1 amended — the two results of `extract_vehicle_data` are never both
non-null, and they are both null only when the value the code chose to
propagate was itself null: an `error` key bound to null, or a
success envelope whose nested `response` is null. -/
theorem extract_at_most_one_nonnull
    (raw : JValue) (rec err : JValue)
    (h : extract_vehicle_data raw = (rec, err)) :
    (rec = .null ∨ err = .null) ∧
      (rec = .null → err = .null →
        ∃ fields, raw = .obj fields ∧
          (fields.lookup "error" = some .null ∨
            (fields.lookup "error" = none ∧ statusIsSuccess fields = true ∧
              fields.lookup "response" = some .null))) := by
  cases raw with
  | obj fields =>
    cases herr : fields.lookup "error" with
    | some e =>
      simp only [extract_vehicle_data, herr, Prod.mk.injEq] at h
      obtain ⟨h1, h2⟩ := h
      subst h1; subst h2
      exact ⟨Or.inl rfl, fun _ he => ⟨fields, rfl, Or.inl (he ▸ herr)⟩⟩
    | none =>
      by_cases hc : (statusIsSuccess fields && (fields.lookup "response").isSome) = true
      · obtain ⟨hs, hr⟩ := Bool.and_eq_true_iff.mp hc
        obtain ⟨v, hv⟩ := Option.isSome_iff_exists.mp hr
        simp [extract_vehicle_data, herr, hv, hs, Prod.mk.injEq] at h
        obtain ⟨h1, h2⟩ := h
        subst h1; subst h2
        exact ⟨Or.inr rfl, fun hrec _ => ⟨fields, rfl, Or.inr ⟨herr, hs, hrec ▸ hv⟩⟩⟩
      · simp only [Bool.not_eq_true] at hc
        by_cases hfl : ((fields.lookup "license_plate").isSome
            || (fields.lookup "owner_name").isSome) = true
        · simp only [extract_vehicle_data, herr, hc, hfl, Bool.false_eq_true, if_false,
            if_true, Prod.mk.injEq] at h
          obtain ⟨h1, h2⟩ := h
          subst h1; subst h2
          refine ⟨Or.inr rfl, fun hrec _ => ?_⟩
          simp at hrec
        · simp only [Bool.not_eq_true] at hfl
          simp only [extract_vehicle_data, herr, hc, hfl, Bool.false_eq_true, if_false,
            Prod.mk.injEq] at h
          obtain ⟨h1, h2⟩ := h
          subst h1; subst h2
          refine ⟨Or.inl rfl, fun _ he => ?_⟩
          simp at he
  | null =>
    simp only [extract_vehicle_data, Prod.mk.injEq] at h
    obtain ⟨h1, h2⟩ := h; subst h1; subst h2
    exact ⟨Or.inl rfl, fun _ he => by simp at he⟩
  | bool b =>
    simp only [extract_vehicle_data, Prod.mk.injEq] at h
    obtain ⟨h1, h2⟩ := h; subst h1; subst h2
    exact ⟨Or.inl rfl, fun _ he => by simp at he⟩
  | num n =>
    simp only [extract_vehicle_data, Prod.mk.injEq] at h
    obtain ⟨h1, h2⟩ := h; subst h1; subst h2
    exact ⟨Or.inl rfl, fun _ he => by simp at he⟩
  | str s =>
    simp only [extract_vehicle_data, Prod.mk.injEq] at h
    obtain ⟨h1, h2⟩ := h; subst h1; subst h2
    exact ⟨Or.inl rfl, fun _ he => by simp at he⟩
  | arr xs =>
    simp only [extract_vehicle_data, Prod.mk.injEq] at h
    obtain ⟨h1, h2⟩ := h; subst h1; subst h2
    exact ⟨Or.inl rfl, fun _ he => by simp at he⟩

theorem extract_at_most_one_nonnull_witness :
    ((JValue.obj [("owner_name", .str "X")] = JValue.null ∨ (JValue.null : JValue) = .null) ∧
      (JValue.obj [("owner_name", .str "X")] = JValue.null → (JValue.null : JValue) = .null →
        ∃ fields, JValue.obj [("owner_name", .str "X")] = .obj fields ∧
          (fields.lookup "error" = some .null ∨
            (fields.lookup "error" = none ∧ statusIsSuccess fields = true ∧
              fields.lookup "response" = some .null)))) :=
  extract_at_most_one_nonnull (.obj [("owner_name", .str "X")])
    (.obj [("owner_name", .str "X")]) .null rfl

/-- The character class `[A-Z]` of the plate regex. -/
def isUpperAlpha (c : Char) : Bool := decide ('A' ≤ c) && decide (c ≤ 'Z')

/-- The character class `[0-9]` of the plate regex. -/
def isDigitChar (c : Char) : Bool := decide ('0' ≤ c) && decide (c ≤ '9')

/-- Python `str.upper`, modelled on the ASCII range used by the identifiers
and report fields the program handles. -/
def toUpperA (c : Char) : Char :=
  if 'a' ≤ c ∧ c ≤ 'z' then Char.ofNat (c.toNat - 32) else c

/-- `s.upper()` on an embedded string. -/
def upperStr (s : String) : String := String.mk (s.data.map toUpperA)

/-- One quantifier choice of the regex
`[A-Z]{2}[0-9]{1,2}[A-Z]{1,2}[0-9]{4}` read end to end: `dn` digits in
the second group and `ln` letters in the third. -/
def checkSplit (cs : List Char) (dn ln : Nat) : Bool :=
  cs.length == 6 + dn + ln &&
  (cs.take 2).all isUpperAlpha &&
  ((cs.drop 2).take dn).all isDigitChar &&
  (((cs.drop 2).drop dn).take ln).all isUpperAlpha &&
  (((cs.drop 2).drop dn).drop ln).all isDigitChar

/-- The whole-string regex match `[A-Z]{2}[0-9]{1,2}[A-Z]{1,2}[0-9]{4}`:
the disjunction over the four quantifier choices, exactly the strings the
backtracking engine accepts between the anchors. -/
def matchesCore (cs : List Char) : Bool :=
  checkSplit cs 1 1 || checkSplit cs 2 1 || checkSplit cs 1 2 || checkSplit cs 2 2

/-- Python `re.match` of the anchored pattern
`^[A-Z]{2}[0-9]{1,2}[A-Z]{1,2}[0-9]{4}$` as a whole-input test: in
Python, `$` matches at the end of the string or just before a newline
that ends the string, so a single trailing newline is tolerated. -/
def reMatchPlate (cs : List Char) : Bool :=
  matchesCore cs || ((cs.getLast? == some '\n') && matchesCore cs.dropLast)

/-- `validate_vehicle_number(number)` (src/vehicle_info.py lines 48–50):
uppercase the input, then match the anchored plate pattern. -/
def validate_vehicle_number (number : String) : Bool :=
  reMatchPlate (number.data.map toUpperA)

/-- The plate shape as worded by the spec, on a character sequence:
exactly two uppercase letters, one or two digits, one or two uppercase
letters, exactly four digits, and nothing else. -/
def PlateShape (cs : List Char) : Prop :=
  ∃ a b c d : List Char,
    cs = a ++ (b ++ (c ++ d)) ∧
    a.length = 2 ∧ (1 ≤ b.length ∧ b.length ≤ 2) ∧
    (1 ≤ c.length ∧ c.length ≤ 2) ∧ d.length = 4 ∧
    a.all isUpperAlpha = true ∧ b.all isDigitChar = true ∧
    c.all isUpperAlpha = true ∧ d.all isDigitChar = true

theorem checkSplit_iff (cs : List Char) (dn ln : Nat) :
    checkSplit cs dn ln = true ↔
      ∃ a b c d : List Char,
        cs = a ++ (b ++ (c ++ d)) ∧
        a.length = 2 ∧ b.length = dn ∧ c.length = ln ∧ d.length = 4 ∧
        a.all isUpperAlpha = true ∧ b.all isDigitChar = true ∧
        c.all isUpperAlpha = true ∧ d.all isDigitChar = true := by
  constructor
  · intro h
    simp only [checkSplit, Bool.and_eq_true, beq_iff_eq] at h
    obtain ⟨⟨⟨⟨hlen, h1⟩, h2⟩, h3⟩, h4⟩ := h
    refine ⟨cs.take 2, (cs.drop 2).take dn, ((cs.drop 2).drop dn).take ln,
      ((cs.drop 2).drop dn).drop ln, ?_, ?_, ?_, ?_, ?_, h1, h2, h3, h4⟩
    · rw [List.take_append_drop, List.take_append_drop, List.take_append_drop]
    · apply List.length_take_of_le; omega
    · rw [List.length_take, List.length_drop]; omega
    · rw [List.length_take, List.length_drop, List.length_drop]; omega
    · rw [List.length_drop, List.length_drop, List.length_drop]; omega
  · rintro ⟨a, b, c, d, hcs, ha, hb, hc, hd, hA, hB, hC, hD⟩
    subst hcs
    simp only [checkSplit, Bool.and_eq_true, beq_iff_eq]
    refine ⟨⟨⟨⟨?_, ?_⟩, ?_⟩, ?_⟩, ?_⟩
    · simp only [List.length_append, ha, hb, hc, hd]; omega
    · rw [List.take_left' ha]; exact hA
    · rw [List.drop_left' ha, List.take_left' hb]; exact hB
    · rw [List.drop_left' ha, List.drop_left' hb, List.take_left' hc]; exact hC
    · rw [List.drop_left' ha, List.drop_left' hb, List.drop_left' hc]; exact hD

theorem matchesCore_iff (cs : List Char) : matchesCore cs = true ↔ PlateShape cs := by
  constructor
  · intro h
    simp only [matchesCore, Bool.or_eq_true] at h
    rcases h with ((h | h) | h) | h <;>
      · obtain ⟨a, b, c, d, hcs, ha, hb, hc, hd, hA, hB, hC, hD⟩ :=
          (checkSplit_iff cs _ _).mp h
        exact ⟨a, b, c, d, hcs, ha, ⟨by omega, by omega⟩, ⟨by omega, by omega⟩,
          hd, hA, hB, hC, hD⟩
  · rintro ⟨a, b, c, d, hcs, ha, ⟨hb1, hb2⟩, ⟨hc1, hc2⟩, hd, hA, hB, hC, hD⟩
    have hb : b.length = 1 ∨ b.length = 2 := by omega
    have hc : c.length = 1 ∨ c.length = 2 := by omega
    simp only [matchesCore, Bool.or_eq_true]
    rcases hb with hb | hb <;> rcases hc with hc | hc
    · exact Or.inl (Or.inl (Or.inl ((checkSplit_iff cs 1 1).mpr
        ⟨a, b, c, d, hcs, ha, hb, hc, hd, hA, hB, hC, hD⟩)))
    · exact Or.inl (Or.inr ((checkSplit_iff cs 1 2).mpr
        ⟨a, b, c, d, hcs, ha, hb, hc, hd, hA, hB, hC, hD⟩))
    · exact Or.inl (Or.inl (Or.inr ((checkSplit_iff cs 2 1).mpr
        ⟨a, b, c, d, hcs, ha, hb, hc, hd, hA, hB, hC, hD⟩)))
    · exact Or.inr ((checkSplit_iff cs 2 2).mpr
        ⟨a, b, c, d, hcs, ha, hb, hc, hd, hA, hB, hC, hD⟩)

/-- C2 amended — after uppercasing, `validate_vehicle_number` accepts
exactly the strings of the plate shape (two letters, one or two digits,
one or two letters, four digits, nothing else) plus, because the Python
`$` anchor also matches just before a string-final newline, the same shapes
followed by one trailing newline.  Every other string is rejected. -/
theorem validate_vehicle_number_characterization (s : String) :
    validate_vehicle_number s = true ↔
      (PlateShape (s.data.map toUpperA) ∨
        ∃ t, s.data.map toUpperA = t ++ ['\n'] ∧ PlateShape t) := by
  simp only [validate_vehicle_number, reMatchPlate, Bool.or_eq_true,
    Bool.and_eq_true, beq_iff_eq]
  constructor
  · rintro (h | ⟨hl, hp⟩)
    · exact Or.inl ((matchesCore_iff _).mp h)
    · obtain ⟨t, ht⟩ := List.getLast?_eq_some_iff.mp hl
      refine Or.inr ⟨t, ht, (matchesCore_iff _).mp ?_⟩
      rw [ht, List.dropLast_concat] at hp
      exact hp
  · rintro (h | ⟨t, ht, hp⟩)
    · exact Or.inl ((matchesCore_iff _).mpr h)
    · refine Or.inr ⟨?_, ?_⟩
      · rw [ht]; exact List.getLast?_concat t
      · rw [ht, List.dropLast_concat]; exact (matchesCore_iff _).mpr hp

theorem validate_vehicle_number_characterization_witness :
    (PlateShape ("pb65am0008".data.map toUpperA) ∨
      ∃ t, "pb65am0008".data.map toUpperA = t ++ ['\n'] ∧ PlateShape t) :=
  (validate_vehicle_number_characterization "pb65am0008").mp (by decide)

/-- C2 counterexample — `"MH02FB2727\n"` carries an extra trailing
character and is not of the plate shape, yet validation accepts it:
the claimed both-ends anchoring ("no extra characters are permitted")
fails on a trailing newline. -/
theorem validate_trailing_newline_counterexample :
    validate_vehicle_number "MH02FB2727\n" = true ∧
      ¬ PlateShape ("MH02FB2727\n".data.map toUpperA) := by
  constructor
  · decide
  · intro hp
    have h := (matchesCore_iff _).mpr hp
    have h' : matchesCore ("MH02FB2727\n".data.map toUpperA) = false := by decide
    rw [h] at h'
    exact Bool.noConfusion h'

/-- Python `str.ljust(w)`: pad on the right with spaces up to width `w`
(f-string `:<25` alignment). -/
def ljust (s : String) (w : Nat) : String :=
  s ++ String.mk (List.replicate (w - s.length) ' ')

/-- Python `str.title` on the ASCII fragment: the first letter of every
alphabetic run is uppercased, the rest lowercased; any non-letter starts
a new run. -/
def pyTitleGo : Bool → List Char → List Char
  | _, [] => []
  | prevAlpha, c :: cs =>
    if 'a' ≤ c ∧ c ≤ 'z' then
      (if prevAlpha then c else Char.ofNat (c.toNat - 32)) :: pyTitleGo true cs
    else if 'A' ≤ c ∧ c ≤ 'Z' then
      (if prevAlpha then Char.ofNat (c.toNat + 32) else c) :: pyTitleGo true cs
    else
      c :: pyTitleGo false cs

def pyTitle (s : String) : String := String.mk (pyTitleGo false s.data)

/-- The `field_labels` dictionary of `format_vehicle_text`
(src/vehicle_info.py lines 112–159). -/
def field_labels : List (String × String) :=
  [("license_plate", "Registration No"),
   ("owner_name", "Owner Name"),
   ("father_name", "Father" ++ apos ++ "s Name"),
   ("registration_date", "Registration Date"),
   ("class", "Vehicle Class"),
   ("fuel_type", "Fuel Type"),
   ("engine_number", "Engine No"),
   ("chassis_number", "Chassis No"),
   ("brand_name", "Make"),
   ("brand_model", "Model"),
   ("maker_model", "Model"),
   ("insurance_expiry", "Insurance Upto"),
   ("insurance_company", "Insurance Co"),
   ("insurance_policy", "Policy No"),
   ("fit_up_to", "Fitness Upto"),
   ("tax_upto", "Tax Upto"),
   ("rc_status", "RC Status"),
   ("color", "Colour"),
   ("norms", "Emission Norms"),
   ("seating_capacity", "Seating"),
   ("cubic_capacity", "Engine CC"),
   ("cylinders", "Cylinders"),
   ("vehicle_age", "Vehicle Age"),
   ("pucc_upto", "PUCC Upto"),
   ("pucc_number", "PUCC No"),
   ("noc_details", "NOC Details"),
   ("present_address", "Present Address"),
   ("permanent_address", "Permanent Address"),
   ("financer", "Financer"),
   ("is_financed", "Financed"),
   ("owner_count", "Owner Count"),
   ("blacklist_status", "Blacklist Status"),
   ("national_permit_number", "National Permit No"),
   ("national_permit_upto", "National Permit Upto"),
   ("permit_number", "Permit No"),
   ("permit_issue_date", "Permit Issue Date"),
   ("permit_valid_upto", "Permit Valid Upto"),
   ("permit_type", "Permit Type"),
   ("sleeper_capacity", "Sleeper Capacity"),
   ("standing_capacity", "Standing Capacity"),
   ("gross_weight", "Gross Weight"),
   ("unladen_weight", "Unladen Weight"),
   ("wheelbase", "Wheelbase"),
   ("body_type", "Body Type"),
   ("note", "Note"),
   ("_note", "Note")]

/-- The bookkeeping keys the presenter skips
(`if key in ["id", "createdAt", ...]`). -/
def bookkeepingKeys : List String :=
  ["id", "createdAt", "updatedAt", "vehicleId", "source", "latest_by"]

/-- The sentinel test `value in [None, "", "null", "NA", "Not Available"]`:
under Python equality only `None` and those exact strings are members. -/
def isSentinel : JValue → Bool
  | .null => true
  | .str s => s == "" || s == "null" || s == "NA" || s == "Not Available"
  | _ => false

/-- `field_labels.get(key, key.replace(chr(95), chr(32)).title())`. -/
def labelFor (key : String) : String :=
  (field_labels.lookup key).getD
    (pyTitle (String.mk (key.data.map fun c => if c = '_' then ' ' else c)))

/-- One emitted field line: `f"  <label ljust 25>: <value>"`. -/
def renderLine (key : String) (v : JValue) : String :=
  "  " ++ ljust (labelFor key) 25 ++ ": " ++ pyStr v

/-- The field loop of `format_vehicle_text` (src/vehicle_info.py lines
161–167): iterate the items of the record in order, skipping bookkeeping keys
and sentinel values. -/
def fieldLines : List (String × JValue) → List String
  | [] => []
  | (k, v) :: rest =>
    if bookkeepingKeys.contains k then fieldLines rest
    else if isSentinel v then fieldLines rest
    else renderLine k v :: fieldLines rest

/-- The decorative bar `"═" * 56`. -/
def barLine : String := String.mk (List.replicate 56 '═')

/-- The title line embedding the provenance label. -/
def titleLine (source : String) : String :=
  "🔍 VEHICLE DETAILS [Source: " ++ source ++ "]"

/-- The lines of `format_vehicle_text(vehicle_data, source)`: bar, title,
bar, the kept field lines, bar. -/
def formatLines (vehicle_data : List (String × JValue)) (source : String) : List String :=
  barLine :: titleLine source :: barLine :: (fieldLines vehicle_data ++ [barLine])

/-- `format_vehicle_text(vehicle_data, source)` (src/vehicle_info.py lines
105–169) for a dict record: the newline join of its lines. -/
def format_vehicle_text (vehicle_data : List (String × JValue)) (source : String) : String :=
  String.intercalate "\n" (formatLines vehicle_data source)

/-- `format_vehicle_text` as called on an arbitrary normalized record:
Python iterates `vehicle_data.items()`, which raises `AttributeError`
(modelled as `none`) unless the record is a dict. -/
def format_vehicle_textJ (vehicle_data : JValue) (source : String) : Option String :=
  match vehicle_data with
  | .obj fields => some (format_vehicle_text fields source)
  | _ => none

theorem fieldLines_sound (fields : List (String × JValue)) (line : String)
    (h : line ∈ fieldLines fields) :
    ∃ k v, (k, v) ∈ fields ∧ bookkeepingKeys.contains k = false ∧
      isSentinel v = false ∧ line = renderLine k v := by
  induction fields with
  | nil => cases h
  | cons kv rest ih =>
    obtain ⟨k, v⟩ := kv
    by_cases hb : bookkeepingKeys.contains k = true
    · rw [fieldLines, if_pos hb] at h
      obtain ⟨k', v', hm, h1, h2, h3⟩ := ih h
      exact ⟨k', v', List.mem_cons_of_mem _ hm, h1, h2, h3⟩
    · simp only [Bool.not_eq_true] at hb
      by_cases hs : isSentinel v = true
      · rw [fieldLines, if_neg (by rw [hb]; simp), if_pos hs] at h
        obtain ⟨k', v', hm, h1, h2, h3⟩ := ih h
        exact ⟨k', v', List.mem_cons_of_mem _ hm, h1, h2, h3⟩
      · simp only [Bool.not_eq_true] at hs
        rw [fieldLines, if_neg (by rw [hb]; simp), if_neg (by rw [hs]; simp)] at h
        rcases List.mem_cons.mp h with h | h
        · exact ⟨k, v, List.mem_cons_self _ _, hb, hs, h⟩
        · obtain ⟨k', v', hm, h1, h2, h3⟩ := ih h
          exact ⟨k', v', List.mem_cons_of_mem _ hm, h1, h2, h3⟩

/-- C5 — every line of the presented report is a decoration bar, the
title line, or the rendering of a field that is neither a bookkeeping
key nor bound to a sentinel ("absent") value; hence no line is ever
emitted for a null/empty/sentinel value or for a bookkeeping key. -/
theorem format_no_line_for_skipped_fields
    (vehicle_data : List (String × JValue)) (source line : String)
    (h : line ∈ formatLines vehicle_data source) :
    line = barLine ∨ line = titleLine source ∨
      ∃ k v, (k, v) ∈ vehicle_data ∧ bookkeepingKeys.contains k = false ∧
        isSentinel v = false ∧ line = renderLine k v := by
  simp only [formatLines, List.mem_cons, List.mem_append, List.not_mem_nil, or_false] at h
  rcases h with h | h | h | h | h
  · exact Or.inl h
  · exact Or.inr (Or.inl h)
  · exact Or.inl h
  · exact Or.inr (Or.inr (fieldLines_sound _ _ h))
  · exact Or.inl h

theorem format_no_line_for_skipped_fields_witness :
    (renderLine "owner_name" (.str "JOHN DOE") = barLine ∨
      renderLine "owner_name" (.str "JOHN DOE") = titleLine "Live API" ∨
      ∃ k v, (k, v) ∈ [("vehicleId", JValue.str "77"), ("rc_status", JValue.str "NA"),
          ("owner_name", JValue.str "JOHN DOE")] ∧
        bookkeepingKeys.contains k = false ∧ isSentinel v = false ∧
        renderLine "owner_name" (.str "JOHN DOE") = renderLine k v) :=
  format_no_line_for_skipped_fields
    [("vehicleId", .str "77"), ("rc_status", .str "NA"), ("owner_name", .str "JOHN DOE")]
    "Live API" (renderLine "owner_name" (.str "JOHN DOE")) (by decide)

/-- `demo_data(vehicle_no)` (src/vehicle_info.py lines 76–90). -/
def demo_data (vehicle_no : String) : List (String × JValue) :=
  [("license_plate", .str (upperStr vehicle_no)),
   ("owner_name", .str "DEMO OWNER"),
   ("registration_date", .str "01-01-2020"),
   ("class", .str "Motor Car"),
   ("fuel_type", .str "Petrol"),
   ("engine_number", .str "DEMO12345"),
   ("chassis_number", .str "DEMO67890"),
   ("maker_model", .str "Maruti Suzuki Swift"),
   ("insurance_expiry", .str "31-12-2024"),
   ("fit_up_to", .str "31-12-2025"),
   ("rc_status", .str "Active"),
   ("_note", .str "This is demo data – API not used.")]

/-- Whitespace stripped by Python `str.strip` (ASCII range). -/
def pyIsSpace (c : Char) : Bool :=
  c == ' ' || c == '\t' || c == '\n' || c == '\r' || c == Char.ofNat 11 || c == Char.ofNat 12

/-- Python `s.strip()`. -/
def pyStrip (s : String) : String :=
  String.mk (((s.data.dropWhile pyIsSpace).reverse.dropWhile pyIsSpace).reverse)

/-- The filename `f"vehicle_<vehicle_no>_<timestamp>.txt"` built inside
`save_to_file` from the identifier as passed (src/vehicle_info.py line 184). -/
def save_filename (vehicle_no ts : String) : String :=
  "vehicle_" ++ vehicle_no ++ "_" ++ ts ++ ".txt"

/-- The metadata header `main` prefixes to a saved report
(src/vehicle_info.py line 249): only here and in console display is the
identifier uppercased. -/
def report_header (genTs vehicle_no source_type : String) : String :=
  "VEHICLEINFO Report\nGenerated: " ++ genTs ++ "\nVehicle: " ++ upperStr vehicle_no
    ++ "\nSource: " ++ source_type ++ "\n\n"

/-- Outcome of one OS call (directory creation, file open/write). -/
inductive FsOut where
  | ok
  | fail (msg : String)
deriving Repr, DecidableEq

/-- Behaviour of the filesystem toward one `save_to_file` call: whether
`reports/` already exists, and how `os.makedirs` and the guarded
`open`/`write` end if reached. -/
structure FsBehavior where
  dirExists : Bool
  mkdir : FsOut
  write : FsOut
deriving Repr, DecidableEq

/-- Observable end of a `save_to_file` call: an exception escaping the
function, or a normal return carrying the console messages printed and
the content written, if any. -/
inductive SaveOutcome where
  | raised (msg : String)
  | done (printed : List String) (written : Option String)
deriving Repr, DecidableEq

def SaveOutcome.isRaised : SaveOutcome → Bool
  | .raised _ => true
  | .done _ _ => false

def SaveOutcome.printedMsgs : SaveOutcome → List String
  | .raised _ => []
  | .done printed _ => printed

/-- The guarded write of `save_to_file` (src/vehicle_info.py lines
187–192): `try: open/write` with the failure caught and reported. -/
def save_write (fs : FsBehavior) (msgs : List String)
    (vehicle_no content ts : String) : SaveOutcome :=
  let filepath := "reports/" ++ save_filename vehicle_no ts
  match fs.write with
  | .ok => .done (msgs ++ ["💾 Output saved to: " ++ filepath]) (some content)
  | .fail e => .done (msgs ++ ["❌ Failed to save file: " ++ e]) none

/-- `save_to_file(vehicle_no, content)` (src/vehicle_info.py lines
176–192).  `os.makedirs` runs before and outside the `try` block, so a
directory-creation failure escapes the function; only the open/write is
guarded. -/
def save_to_file (fs : FsBehavior) (vehicle_no content ts : String) : SaveOutcome :=
  if fs.dirExists then
    save_write fs [] vehicle_no content ts
  else
    match fs.mkdir with
    | .fail msg => .raised msg
    | .ok => save_write fs ["📁 Created directory: reports/"] vehicle_no content ts

theorem save_to_file_no_raise (fs : FsBehavior) (vehicle_no content ts : String)
    (h : fs.dirExists = true ∨ fs.mkdir = FsOut.ok) :
    (save_to_file fs vehicle_no content ts).isRaised = false := by
  obtain ⟨de, mk, wr⟩ := fs
  cases de <;> cases mk <;> cases wr <;>
    simp_all [save_to_file, save_write, SaveOutcome.isRaised]

/-- Argument handling of `main` (src/vehicle_info.py lines 203–217): the
save flag in either spelling, then the identifier from the first
remaining argument or the interactive prompt, stripped. -/
def parse_args (argv : List String) (stdin : String) : Bool × String :=
  let save_output := argv.contains "-s" || argv.contains "--save"
  let args := argv.filter (fun a => !(a == "-s" || a == "--save"))
  (save_output, pyStrip (match args with | [] => stdin | a :: _ => a))

/-- Process end of one run of `main`: `sys.exit(code)` or normal
completion (`exited 0`), or an uncaught exception (`crashed`, a
non-zero interpreter exit). -/
inductive ExitStat where
  | exited (code : Nat)
  | crashed
deriving Repr, DecidableEq

/-- Observable behaviour of one run of `main`: how the process ended,
the identifier handed to `fetch_from_api` (none if no request was made),
the formatted block printed, its provenance label, the error value shown
in the fallback warning (when the fallback was taken), and the filename
and content handed to the save step. -/
structure MainResult where
  status : ExitStat
  fetchArg : Option String
  displayedText : Option String
  sourceType : Option String
  apiIssue : Option JValue
  savedFile : Option String
  savedContent : Option String
deriving Repr

/-- The record `main` would present can actually be presented:
`format_vehicle_text` iterates `.items()`, which only a dict has, and a
falsy record is replaced by demo data before presentation. -/
def presentable : JValue → Bool
  | .obj _ => true
  | v => !jTruthy v

/-- Display stage of `main` (src/vehicle_info.py lines 229–244): present
the live record, or fall back to demo data with the warning reason;
`none` models the uncaught `AttributeError` of presenting a truthy
non-dict record. -/
def display_stage (vehicle_no : String) (res : JValue × JValue) :
    Option (String × String × Option JValue) :=
  if jTruthy res.1 then
    match format_vehicle_textJ res.1 "Live API" with
    | none => none
    | some t => some (t, "Live API", none)
  else
    some (format_vehicle_text (demo_data vehicle_no) "Demo", "Demo", some res.2)

/-- `main()` (src/vehicle_info.py lines 195–251) as a pure function of
its run inputs: whether `RAPIDAPI_KEY` is truthy, the CLI arguments, the
interactive input line, the decoded response `fetch_from_api` returns,
the behaviour of the filesystem toward the save step, and the two
`datetime.now()` timestamps (metadata header and save filename). -/
def main_flow (keyTruthy : Bool) (argv : List String) (stdin : String)
    (apiResponse : JValue) (fs : FsBehavior) (genTs fileTs : String) : MainResult :=
  if keyTruthy then
    let save_output := (parse_args argv stdin).1
    let vehicle_no := (parse_args argv stdin).2
    if validate_vehicle_number vehicle_no then
      match display_stage vehicle_no (extract_vehicle_data apiResponse) with
      | none => ⟨.crashed, some vehicle_no, none, none, none, none, none⟩
      | some (output_text, source_type, issue) =>
        if save_output then
          match save_to_file fs vehicle_no
              (report_header genTs vehicle_no source_type ++ output_text) fileTs with
          | .raised _ =>
            ⟨.crashed, some vehicle_no, some output_text, some source_type, issue, none,
              some (report_header genTs vehicle_no source_type ++ output_text)⟩
          | .done _ _ =>
            ⟨.exited 0, some vehicle_no, some output_text, some source_type, issue,
              some (save_filename vehicle_no fileTs),
              some (report_header genTs vehicle_no source_type ++ output_text)⟩
        else
          ⟨.exited 0, some vehicle_no, some output_text, some source_type, issue, none, none⟩
    else
      ⟨.exited 1, none, none, none, none, none, none⟩
  else
    ⟨.exited 1, none, none, none, none, none, none⟩

theorem display_stage_of_presentable (vehicle_no : String) (res : JValue × JValue)
    (h : presentable res.1 = true) :
    ∃ t st issue, display_stage vehicle_no res = some (t, st, issue) := by
  obtain ⟨r, e⟩ := res
  cases hj : jTruthy r with
  | false =>
    refine ⟨format_vehicle_text (demo_data vehicle_no) "Demo", "Demo", some e, ?_⟩
    simp [display_stage, hj]
  | true =>
    cases r with
    | obj fields =>
      refine ⟨format_vehicle_text fields "Live API", "Live API", none, ?_⟩
      simp [display_stage, hj, format_vehicle_textJ]
    | null => simp_all [presentable, jTruthy]
    | bool b => simp_all [presentable, jTruthy]
    | num n => simp_all [presentable, jTruthy]
    | str s => simp_all [presentable, jTruthy]
    | arr xs => simp_all [presentable, jTruthy]

/-- C8 counterexample — when `reports/` is absent and `os.makedirs`
fails, the exception escapes `save_to_file`: the makedirs call sits
before and outside the `try` block, refuting "reports any I/O failure —
including failure to create the output directory — without raising past
itself". -/
theorem save_mkdir_failure_raises :
    save_to_file ⟨false, .fail "Permission denied", .ok⟩
      "PB65AM0008" "content" "20250101_120000" = .raised "Permission denied" := rfl

/-- C8 amended — provided the output directory already exists or its
creation succeeds, no exception escapes `save_to_file`: a failing file
write is caught and reported as a console message.  (A failing
directory creation, by contrast, raises past the function.) -/
theorem save_write_failure_reported
    (fs : FsBehavior) (vehicle_no content ts e : String)
    (hdir : fs.dirExists = true ∨ fs.mkdir = FsOut.ok)
    (hw : fs.write = .fail e) :
    (save_to_file fs vehicle_no content ts).isRaised = false ∧
      "❌ Failed to save file: " ++ e ∈
        (save_to_file fs vehicle_no content ts).printedMsgs := by
  refine ⟨save_to_file_no_raise fs vehicle_no content ts hdir, ?_⟩
  obtain ⟨de, mk, wr⟩ := fs
  cases de <;> cases mk <;>
    simp_all [save_to_file, save_write, SaveOutcome.printedMsgs]

theorem save_write_failure_reported_witness :
    (save_to_file ⟨true, .ok, .fail "disk full"⟩ "MH02FB2727" "text"
        "20250101_120000").isRaised = false ∧
      "❌ Failed to save file: " ++ "disk full" ∈
        (save_to_file ⟨true, .ok, .fail "disk full"⟩ "MH02FB2727" "text"
          "20250101_120000").printedMsgs :=
  save_write_failure_reported ⟨true, .ok, .fail "disk full"⟩
    "MH02FB2727" "text" "20250101_120000" "disk full" (Or.inl rfl) rfl

/-- C7 counterexample — credential present, identifier valid, yet the
run does not complete with status zero: a success envelope nesting a
truthy non-dict `response` (here the string `"oops"`) makes the
presenter call `.items()` on a non-dict and the run dies with an
uncaught `AttributeError`. -/
theorem main_flow_crash_counterexample :
    validate_vehicle_number "MH02FB2727" = true ∧
      (main_flow true ["MH02FB2727"] ""
          (.obj [("status", .str "success"), ("response", .str "oops")])
          ⟨true, .ok, .ok⟩ "T1" "T2").status = .crashed := ⟨by decide, rfl⟩

/-- C7 amended — an identifier failing validation exits with status 1
and no provider request is made; with a truthy credential and a valid
identifier the run completes with status zero regardless of whether the
lookup succeeded or fell back to demo data, provided the normalized
record, when truthy, is a dict (otherwise the presenter raises) and a
requested save does not fail at directory creation (otherwise
`os.makedirs` raises). -/
theorem main_flow_exit_behavior
    (keyTruthy : Bool) (argv : List String) (stdin : String)
    (apiResponse : JValue) (fs : FsBehavior) (genTs fileTs : String) :
    (validate_vehicle_number (parse_args argv stdin).2 = false →
        (main_flow keyTruthy argv stdin apiResponse fs genTs fileTs).status = .exited 1 ∧
          (main_flow keyTruthy argv stdin apiResponse fs genTs fileTs).fetchArg = none) ∧
      (keyTruthy = true →
        validate_vehicle_number (parse_args argv stdin).2 = true →
        presentable (extract_vehicle_data apiResponse).1 = true →
        ((parse_args argv stdin).1 = false ∨ fs.dirExists = true ∨ fs.mkdir = FsOut.ok) →
        (main_flow keyTruthy argv stdin apiResponse fs genTs fileTs).status = .exited 0) := by
  constructor
  · intro hv
    cases keyTruthy
    · exact ⟨rfl, rfl⟩
    · constructor <;> simp [main_flow, hv]
  · intro hk hv hp hs
    subst hk
    obtain ⟨t, st, issue, hd⟩ :=
      display_stage_of_presentable (parse_args argv stdin).2
        (extract_vehicle_data apiResponse) hp
    cases hso : (parse_args argv stdin).1 with
    | false => simp [main_flow, hv, hd, hso]
    | true =>
      have hfs : fs.dirExists = true ∨ fs.mkdir = FsOut.ok := by
        rcases hs with h | h | h
        · rw [hso] at h; simp at h
        · exact Or.inl h
        · exact Or.inr h
      cases hsv : save_to_file fs (parse_args argv stdin).2
          (report_header genTs (parse_args argv stdin).2 st ++ t) fileTs with
      | raised msg =>
        have hno := save_to_file_no_raise fs (parse_args argv stdin).2
          (report_header genTs (parse_args argv stdin).2 st ++ t) fileTs hfs
        rw [hsv] at hno
        simp [SaveOutcome.isRaised] at hno
      | done printed written =>
        simp [main_flow, hv, hd, hso, hsv]

theorem main_flow_exit_behavior_witness :
    ((main_flow true ["invalid123"] "" (.obj []) ⟨true, .ok, .ok⟩ "T1" "T2").status
          = .exited 1 ∧
        (main_flow true ["invalid123"] "" (.obj []) ⟨true, .ok, .ok⟩ "T1" "T2").fetchArg
          = none) ∧
      (main_flow true ["MH02FB2727"] "" (.obj []) ⟨true, .ok, .ok⟩ "T1" "T2").status
        = .exited 0 :=
  ⟨(main_flow_exit_behavior true ["invalid123"] "" (.obj []) ⟨true, .ok, .ok⟩
      "T1" "T2").1 (by decide),
    (main_flow_exit_behavior true ["MH02FB2727"] "" (.obj []) ⟨true, .ok, .ok⟩
      "T1" "T2").2 rfl (by decide) (by decide) (Or.inl (by decide))⟩

/-- C6 counterexample — for the accepted identifier `pb65am0008` the
provider request and the report filename receive the identifier exactly
as entered, not the uppercased form the claim requires. -/
theorem identifier_not_uppercased_counterexample :
    (main_flow true ["pb65am0008", "--save"] "" (.obj []) ⟨true, .ok, .ok⟩
        "T1" "20250101_120000").fetchArg = some "pb65am0008" ∧
      (main_flow true ["pb65am0008", "--save"] "" (.obj []) ⟨true, .ok, .ok⟩
        "T1" "20250101_120000").fetchArg ≠ some "PB65AM0008" ∧
      (main_flow true ["pb65am0008", "--save"] "" (.obj []) ⟨true, .ok, .ok⟩
        "T1" "20250101_120000").savedFile
        = some "vehicle_pb65am0008_20250101_120000.txt" ∧
      (main_flow true ["pb65am0008", "--save"] "" (.obj []) ⟨true, .ok, .ok⟩
        "T1" "20250101_120000").savedFile
        ≠ some "vehicle_PB65AM0008_20250101_120000.txt" :=
  ⟨rfl, by decide, rfl, by decide⟩

/-- C6 amended — after validation the identifier flows downstream
verbatim (stripped, original case): `fetch_from_api` receives it as
entered and `save_to_file` builds the filename from it as entered; the
uppercased form appears only in console display and in the metadata header of the saved
report (`report_header` uppercases). -/
theorem main_flow_passes_identifier_verbatim
    (v stdin : String) (apiResponse : JValue) (fs : FsBehavior) (genTs fileTs : String)
    (hv : validate_vehicle_number (pyStrip v) = true)
    (hp : presentable (extract_vehicle_data apiResponse).1 = true)
    (hfs : fs.dirExists = true ∨ fs.mkdir = FsOut.ok) :
    (main_flow true [v, "--save"] stdin apiResponse fs genTs fileTs).fetchArg
        = some (pyStrip v) ∧
      (main_flow true [v, "--save"] stdin apiResponse fs genTs fileTs).savedFile
        = some (save_filename (pyStrip v) fileTs) ∧
      (main_flow true [v, "--save"] stdin apiResponse fs genTs fileTs).savedContent
        = some (report_header genTs (pyStrip v)
            ((main_flow true [v, "--save"] stdin apiResponse fs genTs fileTs).sourceType.getD "")
          ++ ((main_flow true [v, "--save"] stdin apiResponse fs genTs fileTs).displayedText.getD "")) := by
  by_cases hv1 : v = "-s"
  · subst hv1
    have : validate_vehicle_number (pyStrip "-s") = false := by decide
    rw [this] at hv
    exact Bool.noConfusion hv
  by_cases hv2 : v = "--save"
  · subst hv2
    have : validate_vehicle_number (pyStrip "--save") = false := by decide
    rw [this] at hv
    exact Bool.noConfusion hv
  have h1 : (v == "-s") = false := beq_eq_false_iff_ne.mpr hv1
  have h2 : (v == "--save") = false := beq_eq_false_iff_ne.mpr hv2
  have hpa : parse_args [v, "--save"] stdin = (true, pyStrip v) := by
    simp [parse_args, List.filter, h1, h2]
  obtain ⟨t, st, issue, hd⟩ :=
    display_stage_of_presentable (pyStrip v) (extract_vehicle_data apiResponse) hp
  cases hsv : save_to_file fs (pyStrip v)
      (report_header genTs (pyStrip v) st ++ t) fileTs with
  | raised msg =>
    have hno := save_to_file_no_raise fs (pyStrip v)
      (report_header genTs (pyStrip v) st ++ t) fileTs hfs
    rw [hsv] at hno
    simp [SaveOutcome.isRaised] at hno
  | done printed written =>
    simp [main_flow, hpa, hv, hd, hsv]

theorem main_flow_passes_identifier_verbatim_witness :
    (main_flow true ["pb65am0008", "--save"] "" (.obj []) ⟨true, .ok, .ok⟩
        "T1" "20250101_120000").fetchArg = some (pyStrip "pb65am0008") ∧
      (main_flow true ["pb65am0008", "--save"] "" (.obj []) ⟨true, .ok, .ok⟩
        "T1" "20250101_120000").savedFile
        = some (save_filename (pyStrip "pb65am0008") "20250101_120000") ∧
      (main_flow true ["pb65am0008", "--save"] "" (.obj []) ⟨true, .ok, .ok⟩
        "T1" "20250101_120000").savedContent
        = some (report_header "T1" (pyStrip "pb65am0008")
            ((main_flow true ["pb65am0008", "--save"] "" (.obj []) ⟨true, .ok, .ok⟩
              "T1" "20250101_120000").sourceType.getD "")
          ++ ((main_flow true ["pb65am0008", "--save"] "" (.obj []) ⟨true, .ok, .ok⟩
              "T1" "20250101_120000").displayedText.getD "")) :=
  main_flow_passes_identifier_verbatim "pb65am0008" "" (.obj []) ⟨true, .ok, .ok⟩
    "T1" "20250101_120000" (by decide) (by decide) (Or.inl rfl)

/-- C9 counterexample — the line the claim quotes (no leading indent, the
label padded to a different width) is not among the lines the program
presents for scenario A: the actual field lines are indented two spaces
with the label left-justified to width 25. -/
theorem scenario_a_exact_line_counterexample :
    (main_flow true ["pb65am0008"] "" (.obj [("status", .str "success"), ("response", .obj [("owner_name", .str "JOHN DOE"), ("license_plate", .str "PB65AM0008")])]) ⟨true, .ok, .ok⟩ "T1" "T2").displayedText
        = some (format_vehicle_text
            [("owner_name", .str "JOHN DOE"), ("license_plate", .str "PB65AM0008")]
            "Live API") ∧
      ¬ ("Owner Name              : JOHN DOE" ∈
          formatLines [("owner_name", .str "JOHN DOE"), ("license_plate", .str "PB65AM0008")]
            "Live API") :=
  ⟨rfl, by decide⟩

/-- C9 amended — for input `pb65am0008` and the scenario-A provider
response, the presented output carries provenance "Live API" and
contains the owner line exactly as the presenter renders it: two leading
spaces, the label `Owner Name` left-justified to width 25, then
`: JOHN DOE`. -/
theorem scenario_a_owner_line :
    (main_flow true ["pb65am0008"] "" (.obj [("status", .str "success"), ("response", .obj [("owner_name", .str "JOHN DOE"), ("license_plate", .str "PB65AM0008")])]) ⟨true, .ok, .ok⟩ "T1" "T2").sourceType = some "Live API" ∧
      (main_flow true ["pb65am0008"] "" (.obj [("status", .str "success"), ("response", .obj [("owner_name", .str "JOHN DOE"), ("license_plate", .str "PB65AM0008")])]) ⟨true, .ok, .ok⟩ "T1" "T2").displayedText
        = some (format_vehicle_text
            [("owner_name", .str "JOHN DOE"), ("license_plate", .str "PB65AM0008")]
            "Live API") ∧
      "  Owner Name               : JOHN DOE" ∈
        formatLines [("owner_name", .str "JOHN DOE"), ("license_plate", .str "PB65AM0008")]
          "Live API" :=
  ⟨rfl, rfl, by decide⟩

/-- C10 — a success envelope with an empty dict `response` normalizes to
an empty (falsy) record with a null reason, so `main` treats it as a
failure: it reports an API issue with reason `None`, falls back to the
demo record, and presents it with provenance "Demo", completing with
status zero. -/
theorem empty_record_falls_back_to_demo :
    (main_flow true ["MH02FB2727"] ""
        (.obj [("status", .str "success"), ("response", .obj [])])
        ⟨true, .ok, .ok⟩ "T1" "T2").status = .exited 0 ∧
      (main_flow true ["MH02FB2727"] ""
        (.obj [("status", .str "success"), ("response", .obj [])])
        ⟨true, .ok, .ok⟩ "T1" "T2").sourceType = some "Demo" ∧
      (main_flow true ["MH02FB2727"] ""
        (.obj [("status", .str "success"), ("response", .obj [])])
        ⟨true, .ok, .ok⟩ "T1" "T2").apiIssue = some JValue.null ∧
      (main_flow true ["MH02FB2727"] ""
        (.obj [("status", .str "success"), ("response", .obj [])])
        ⟨true, .ok, .ok⟩ "T1" "T2").displayedText
        = some (format_vehicle_text (demo_data "MH02FB2727") "Demo") ∧
      (main_flow true ["MH02FB2727"] ""
        (.obj [("status", .str "success"), ("response", .obj [])])
        ⟨true, .ok, .ok⟩ "T1" "T2").fetchArg = some "MH02FB2727" :=
  ⟨rfl, rfl, rfl, rfl, rfl⟩
